import Mathlib

/-!
Verification development for the MVR document-query client
(`src/mvr_client.py`).

The embedding models the pure logic of the client:
  * the result parser of `MVRClient._do_query` (lines 243-287),
  * the retry orchestration of `MVRClient.query_documents` (lines 289-348),
  * the OCR-engine selection of `MVRClient.__init__` (lines 63-72) and
    `MVRClient.solve_captcha_ocr` (lines 165-197),
  * the base64 data-URI decoding of `MVRClient.extract_captcha_image`
    (lines 106-112).

Python strings are modelled as `String` / `List Char`.  The two regular
expressions of `_do_query` are fixed patterns and are embedded directly as
recursive matching functions with Python `re.search` semantics (leftmost
match; greedy `\s+`; lazy `.*?` with `DOTALL`; `re.I` where the source uses
it).  `\s` and `\d` are modelled over their ASCII ranges and `str.lower`
over ASCII plus the Cyrillic block actually exercised by the patterns,
which covers every token the source tests for.

HTML parsing (BeautifulSoup) is an external library: a fetched response is
represented by the outcome of the three soup queries the source performs —
the text of the first matching alert/info-bubble/result container (if any),
the full page text, and the raw body.
-/

namespace MVR

/-- Lowercasing of one character, modelling Python `str.lower` on ASCII
letters and on the Cyrillic block U+0400..U+042F (uppercase Cyrillic
А..Я maps to а..я by +32, Ѐ..Џ maps to ѐ..џ by +80).  Other characters
are fixed. -/
def lc (c : Char) : Char :=
  let n := c.toNat
  if 65 ≤ n ∧ n ≤ 90 then Char.ofNat (n + 32)
  else if 0x410 ≤ n ∧ n ≤ 0x42F then Char.ofNat (n + 32)
  else if 0x400 ≤ n ∧ n ≤ 0x40F then Char.ofNat (n + 80)
  else c

/-- Lowercase a character list. -/
def lowerList (l : List Char) : List Char := l.map lc

/-- Lowercase a string: models Python `s.lower()`. -/
def lowerStr (s : String) : String := String.mk (lowerList s.toList)

/-- `beginsWith p cs` holds when `p` is an initial segment of `cs`. -/
def beginsWith : List Char → List Char → Bool
  | [], _ => true
  | _ :: _, [] => false
  | p :: ps, c :: cs => (p == c) && beginsWith ps cs

/-- `hasSub p cs` holds when `p` occurs contiguously inside `cs`:
models Python `p in cs` on strings. -/
def hasSub (p : List Char) : List Char → Bool
  | [] => beginsWith p []
  | c :: cs => beginsWith p (c :: cs) || hasSub p cs

/-- Python `needle in hay` on strings. -/
def containsStr (needle hay : String) : Bool :=
  hasSub needle.toList hay.toList

/-- Drop the pattern `p` from the front of `cs` if it is literally there
(case-sensitive); otherwise fail. -/
def stripLead : List Char → List Char → Option (List Char)
  | [], cs => some cs
  | _ :: _, [] => none
  | p :: ps, c :: cs => if p == c then stripLead ps cs else none

/-- Drop the pattern `p` from the front of `cs` under case-insensitive
comparison (Python `re.I`); otherwise fail. -/
def stripLeadCi : List Char → List Char → Option (List Char)
  | [], cs => some cs
  | _ :: _, [] => none
  | p :: ps, c :: cs => if lc p == lc c then stripLeadCi ps cs else none

/-- Shortest prefix of `cs` that ends with a literal occurrence of `p`:
the semantics of the lazy gap `.*?p` under `re.DOTALL`.  `none` when `p`
does not occur. -/
def takeThrough (p : List Char) : List Char → Option (List Char)
  | [] => none
  | c :: cs =>
    if beginsWith p (c :: cs) then some ((c :: cs).take p.length)
    else
      match takeThrough p cs with
      | some m => some (c :: m)
      | none => none

/-- Case-insensitive `beginsWith` (Python `re.I`). -/
def beginsWithCi : List Char → List Char → Bool
  | [], _ => true
  | _ :: _, [] => false
  | p :: ps, c :: cs => (lc p == lc c) && beginsWithCi ps cs

/-- Case-insensitive variant of `takeThrough`: the semantics of `.*?p`
under `re.DOTALL | re.I`. -/
def takeThroughCi (p : List Char) : List Char → Option (List Char)
  | [] => none
  | c :: cs =>
    if beginsWithCi p (c :: cs) then some ((c :: cs).take p.length)
    else
      match takeThroughCi p cs with
      | some m => some (c :: m)
      | none => none

/-- Python `\s` over its ASCII range. -/
def isPySpace (c : Char) : Bool :=
  c == ' ' || c == Char.ofNat 9 || c == Char.ofNat 10 ||
  c == Char.ofNat 13 || c == Char.ofNat 11 || c == Char.ofNat 12

/-- Python `\d` over its ASCII range. -/
def isDig (c : Char) : Bool := '0' ≤ c && c ≤ '9'

/-- Consume exactly `n` digit characters, returning them and the rest. -/
def takeDigits : Nat → List Char → Option (List Char × List Char)
  | 0, cs => some ([], cs)
  | _ + 1, [] => none
  | n + 1, c :: cs =>
    if isDig c then (takeDigits n cs).map (fun p => (c :: p.1, p.2)) else none

/-- Match the success pattern `(След\s+\d{2}\.\d{2}\.\d{4}.*?получен\.)`
(with `re.DOTALL`) anchored at the head of `cs`; return the matched text.
`\s+` is greedy; since whitespace and digits are disjoint its backtracking
never succeeds, so the maximal whitespace run is taken. -/
def matchSuccessAt (cs : List Char) : Option (List Char) :=
  match stripLead "След".toList cs with
  | none => none
  | some r1 =>
    if (r1.takeWhile isPySpace).isEmpty then none
    else
      match takeDigits 2 (r1.dropWhile isPySpace) with
      | none => none
      | some (d1, r3) =>
        match stripLead ['.'] r3 with
        | none => none
        | some r4 =>
          match takeDigits 2 r4 with
          | none => none
          | some (d2, r5) =>
            match stripLead ['.'] r5 with
            | none => none
            | some r6 =>
              match takeDigits 4 r6 with
              | none => none
              | some (d3, r7) =>
                match takeThrough "получен.".toList r7 with
                | none => none
                | some t =>
                  some ("След".toList ++ r1.takeWhile isPySpace ++
                        d1 ++ '.' :: d2 ++ '.' :: d3 ++ t)

/-- `re.search` for the success pattern: leftmost position at which
`matchSuccessAt` succeeds. -/
def searchSuccess : List Char → Option (List Char)
  | [] => none
  | c :: cs =>
    match matchSuccessAt (c :: cs) with
    | some m => some m
    | none => searchSuccess cs

/-- Match the error pattern `(Грешка.*?капча|Невалидна.*?капча)` (with
`re.DOTALL | re.I`) anchored at the head of `cs`; the first alternative is
tried first, as in Python. -/
def matchErrorAt (cs : List Char) : Option (List Char) :=
  match
    (match stripLeadCi "Грешка".toList cs with
     | some r =>
       match takeThroughCi "капча".toList r with
       | some t => some (cs.take 6 ++ t)
       | none => none
     | none => none)
  with
  | some m => some m
  | none =>
    match stripLeadCi "Невалидна".toList cs with
    | some r =>
      match takeThroughCi "капча".toList r with
      | some t => some (cs.take 9 ++ t)
      | none => none
    | none => none

/-- `re.search` for the error pattern: leftmost position at which
`matchErrorAt` succeeds. -/
def searchError : List Char → Option (List Char)
  | [] => none
  | c :: cs =>
    match matchErrorAt (c :: cs) with
    | some m => some m
    | none => searchError cs

/-- The outcome of the BeautifulSoup queries `_do_query` performs on one
HTTP response: `containerText` is
`result_div.get_text(separator=' ', strip=True)` for the first container
found by the alert / info-bubble / result selectors (`none` when no
selector matches), `fullText` is `soup.get_text()`, and `rawHtml` is
`response.text`. -/
structure ParsedResponse where
  containerText : Option String
  fullText : String
  rawHtml : String
deriving DecidableEq

/-- The dictionary `_do_query` returns. -/
structure QueryResult where
  success : Bool
  is_captcha_error : Bool
  egn : String
  last_name : String
  result : String
  raw_html : String
deriving DecidableEq

/-- The parsing and classification logic of `MVRClient._do_query`
(lines 246-287).  The `captcha` argument is part of the submitted request
URL and does not influence parsing.  In every branch `success` is
`not is_error` exactly as in the source. -/
def doQuery (egn last_name _captcha : String) (resp : ParsedResponse) :
    QueryResult :=
  match resp.containerText with
  | some t =>
    ⟨!(containsStr "Грешка" t || containsStr "Невалидна" t),
     (containsStr "Грешка" t || containsStr "Невалидна" t) &&
       containsStr "капча" (lowerStr t),
     egn, last_name, t, resp.rawHtml⟩
  | none =>
    match searchSuccess resp.fullText.toList with
    | some m => ⟨true, false, egn, last_name, String.mk m, resp.rawHtml⟩
    | none =>
      match searchError resp.fullText.toList with
      | some m => ⟨false, true, egn, last_name, String.mk m, resp.rawHtml⟩
      | none =>
        ⟨true, false, egn, last_name, "Could not parse result", resp.rawHtml⟩

/-!  Retry orchestration (`MVRClient.query_documents`, lines 289-348).

The network is modelled as an oracle `env : Nat → Attempt`: attempt number
`i` (0-based) fetches a form page on which a CAPTCHA image is present or
not, the OCR / manual solver produces some guess, and the submitted query
produces some response.  The model instruments the run with a `Trace`
counting form-page fetches (`get_form_page` calls) and query submissions
(`_do_query` calls). -/

/-- One attempt's worth of external-world behaviour. -/
structure Attempt where
  captchaPresent : Bool
  ocrGuess : String
  manualGuess : String
  response : ParsedResponse
deriving DecidableEq

/-- Counts of the side-effecting calls a run performs. -/
structure Trace where
  fetches : Nat
  submits : Nat
deriving DecidableEq

/-- How `query_documents` terminates: normally with a result dictionary,
or — when the Python local `result` is read before any loop iteration
assigned it — with an `UnboundLocalError`. -/
inductive QueryOutcome where
  | ok (r : QueryResult)
  | unboundLocal
deriving DecidableEq

/-- The fall-through `return result` after the loop: yields the last
computed result, or the unbound-local error when no iteration ran. -/
def finishLoop : Option QueryResult → QueryOutcome
  | some r => QueryOutcome.ok r
  | none => QueryOutcome.unboundLocal

/-- The result `_do_query` computes on attempt `a` along the non-manual
path of the loop body: the guess is `""` when no CAPTCHA image was found,
else the OCR guess (OCR mode) or the manual guess. -/
def attemptStep (useOcr : Bool) (egn ln : String) (a : Attempt) :
    QueryResult :=
  doQuery egn ln
    (if a.captchaPresent then (if useOcr then a.ocrGuess else a.manualGuess)
     else "") a.response

/-- The `for attempt in range(1, max_retries + 1)` loop of
`query_documents` (lines 307-348): `rem` is the number of iterations left,
`idx` the 0-based index of the next attempt, `lastRes` the current value of
the Python local `result` (`none` = not yet assigned), `tr` the
instrumentation counters.  Each iteration clears cookies and fetches the
form (one fetch), extracts the CAPTCHA, solves it, and submits (one
submission); manual mode returns its single submission immediately; a
successful or non-CAPTCHA-error result is returned; a CAPTCHA error
continues with the next attempt. -/
def loopRun (env : Nat → Attempt) (useOcr : Bool) (egn ln : String) :
    Nat → Nat → Option QueryResult → Trace → Trace × QueryOutcome
  | 0, _, lastRes, tr => (tr, finishLoop lastRes)
  | rem + 1, idx, _, tr =>
    if (env idx).captchaPresent && !useOcr then
      (⟨tr.fetches + 1, tr.submits + 1⟩,
       QueryOutcome.ok (doQuery egn ln (env idx).manualGuess (env idx).response))
    else
      if (attemptStep useOcr egn ln (env idx)).success then
        (⟨tr.fetches + 1, tr.submits + 1⟩,
         QueryOutcome.ok (attemptStep useOcr egn ln (env idx)))
      else if (attemptStep useOcr egn ln (env idx)).is_captcha_error then
        loopRun env useOcr egn ln rem (idx + 1)
          (some (attemptStep useOcr egn ln (env idx)))
          ⟨tr.fetches + 1, tr.submits + 1⟩
      else
        (⟨tr.fetches + 1, tr.submits + 1⟩,
         QueryOutcome.ok (attemptStep useOcr egn ln (env idx)))

/-- Python truthiness of the optional `captcha` argument:
`if captcha:` is taken iff the value is neither `None` nor `""`. -/
def truthy : Option String → Bool
  | none => false
  | some s => !(s == "")

/-- `MVRClient.query_documents` (lines 289-348).  A truthy pre-solved
CAPTCHA short-circuits to a single `_do_query` call with no form fetch;
otherwise the retry loop runs `max(0, max_retries)` iterations
(`range(1, max_retries + 1)`). -/
def query_documents (env : Nat → Attempt) (useOcr : Bool)
    (maxRetries : Int) (egn ln : String) (captcha : Option String) :
    Trace × QueryOutcome :=
  if truthy captcha then
    (⟨0, 1⟩, QueryOutcome.ok (doQuery egn ln (captcha.getD "") (env 0).response))
  else
    loopRun env useOcr egn ln maxRetries.toNat 0 none ⟨0, 0⟩

/-- Attempt `a` ends the way that makes the auto-solve loop continue:
a non-success result classified as a CAPTCHA error. -/
def capErrAt (egn ln : String) (a : Attempt) : Prop :=
  (attemptStep true egn ln a).success = false ∧
  (attemptStep true egn ln a).is_captcha_error = true

/-!  OCR-engine selection (`MVRClient.__init__` lines 58-72 and
`MVRClient.solve_captcha_ocr` lines 165-197). -/

/-- Which OCR libraries imported successfully
(`DDDDOCR_AVAILABLE` / `EASYOCR_AVAILABLE`). -/
structure OcrAvailability where
  ddddocr : Bool
  easyocr : Bool
deriving DecidableEq

/-- The OCR-relevant state a constructed client holds: the final value of
`self.use_ocr`, and whether `self.ocr` / `self.easyocr_reader` are set. -/
structure ClientState where
  use_ocr : Bool
  ocrEngine : Bool
  easyReader : Bool
deriving DecidableEq

/-- The OCR branch of `MVRClient.__init__` (lines 58-72): prefer ddddocr,
fall back to easyocr, and with neither available print a warning and set
`self.use_ocr = False` — the constructor does not raise. -/
def initClient (avail : OcrAvailability) (useOcr : Bool) : ClientState :=
  if useOcr then
    if avail.ddddocr then ⟨true, true, false⟩
    else if avail.easyocr then ⟨true, false, true⟩
    else ⟨false, false, false⟩
  else ⟨false, false, false⟩

/-- `re.sub(r'[^A-Za-z0-9]', '', s)`. -/
def cleanAlnum (s : String) : String :=
  String.mk (s.toList.filter fun c =>
    ('A' ≤ c && c ≤ 'Z') || ('a' ≤ c && c ≤ 'z') || ('0' ≤ c && c ≤ '9'))

/-- Python `str.strip()` (whitespace at both ends). -/
def stripWs (s : String) : String :=
  String.mk (((s.toList.dropWhile isPySpace).reverse.dropWhile
    isPySpace).reverse)

/-- `MVRClient.solve_captcha_ocr` (lines 165-197): use ddddocr when
initialized (its classification output `ddddOut`, cleaned); else easyocr
when initialized (join of its readings `easyOuts`, stripped and cleaned,
but only when the reading list is non-empty); else raise
`RuntimeError("No OCR library available. Install ddddocr or easyocr.")`. -/
def solve_captcha_ocr (st : ClientState) (ddddOut : String)
    (easyOuts : List String) : Except String String :=
  if st.ocrEngine then Except.ok (cleanAlnum ddddOut)
  else if st.easyReader then
    if easyOuts.isEmpty then
      Except.error "No OCR library available. Install ddddocr or easyocr."
    else Except.ok (cleanAlnum (stripWs (String.join easyOuts)))
  else Except.error "No OCR library available. Install ddddocr or easyocr."

/-!  Base64 data-URI decoding (`MVRClient.extract_captcha_image`,
lines 106-112).  Bytes are modelled as `Nat` values below 256. -/

/-- The standard base64 alphabet. -/
def b64Alphabet : List Char :=
  "ABCDEFGHIJKLMNOPQRSTUVWXYZabcdefghijklmnopqrstuvwxyz0123456789+/".toList

/-- Character for a 6-bit value. -/
def sextetChar (n : Nat) : Char := b64Alphabet.getD n 'A'

/-- 6-bit value of an alphabet character; `none` for padding or anything
outside the alphabet. -/
def sextetVal (c : Char) : Option Nat :=
  if 'A' ≤ c && c ≤ 'Z' then some (c.toNat - 65)
  else if 'a' ≤ c && c ≤ 'z' then some (c.toNat - 97 + 26)
  else if '0' ≤ c && c ≤ '9' then some (c.toNat - 48 + 52)
  else if c == '+' then some 62
  else if c == '/' then some 63
  else none

/-- `base64.b64encode`: 3 bytes → 4 characters, `=`-padded. -/
def b64EncodeBytes : List Nat → List Char
  | [] => []
  | [b1] => [sextetChar (b1 / 4), sextetChar (b1 % 4 * 16), '=', '=']
  | [b1, b2] =>
    [sextetChar (b1 / 4), sextetChar (b1 % 4 * 16 + b2 / 16),
     sextetChar (b2 % 16 * 4), '=']
  | b1 :: b2 :: b3 :: rest =>
    sextetChar (b1 / 4) :: sextetChar (b1 % 4 * 16 + b2 / 16) ::
    sextetChar (b2 % 16 * 4 + b3 / 64) :: sextetChar (b3 % 64) ::
    b64EncodeBytes rest

/-- `base64.b64decode` on well-formed input (alphabet characters in groups
of four, `=`-padding only at the end): 4 characters → 3, 2 or 1 bytes;
`none` models `binascii.Error`. -/
def b64DecodeChars : List Char → Option (List Nat)
  | [] => some []
  | c1 :: c2 :: c3 :: c4 :: rest =>
    match sextetVal c1, sextetVal c2 with
    | some v1, some v2 =>
      if c3 == '=' && c4 == '=' && rest.isEmpty then
        some [v1 * 4 + v2 / 16]
      else if c4 == '=' && rest.isEmpty then
        match sextetVal c3 with
        | some v3 => some [v1 * 4 + v2 / 16, v2 % 16 * 16 + v3 / 4]
        | none => none
      else
        match sextetVal c3, sextetVal c4 with
        | some v3, some v4 =>
          (b64DecodeChars rest).map fun bs =>
            (v1 * 4 + v2 / 16) :: (v2 % 16 * 16 + v3 / 4) ::
            (v3 % 4 * 64 + v4) :: bs
        | _, _ => none
    | _, _ => none
  | _ => none

/-- `src.split(',', 1)`: the part before the first comma and the part
after it; `none` when there is no comma (where Python's `[1]` would raise
`IndexError`). -/
def splitOnceComma : List Char → Option (List Char × List Char)
  | [] => none
  | c :: cs =>
    if c == ',' then some ([], cs)
    else (splitOnceComma cs).map fun p => (c :: p.1, p.2)

/-- The base64 branch of `MVRClient.extract_captcha_image` (lines
106-112): when the image `src` starts with `data:image`, decode the
portion after the first comma as base64. -/
def extractDataUriBytes (src : String) : Option (List Nat) :=
  if beginsWith "data:image".toList src.toList then
    match splitOnceComma src.toList with
    | some p => b64DecodeChars p.2
    | none => none
  else none

/-!  Concrete inputs used by the closed evaluation theorems below. -/

/-- A response with no result container whose text matches neither
pattern. -/
def respSentinel : ParsedResponse :=
  ⟨none, "nothing recognisable here", "<html>nothing recognisable here</html>"⟩

/-- Page text of a response carrying both an alert container and, in the
full page text, the success phrase. -/
def bodyShadowed : String := "Грешка След 01.01.2024 г. документ е получен."

/-- A response whose alert container says `Грешка` while the page text
contains the success phrase: the container takes precedence. -/
def respShadowed : ParsedResponse := ⟨some "Грешка", bodyShadowed, bodyShadowed⟩

/-- Page text whose success-phrase match itself contains an error token
and a captcha token. -/
def bodyErrCapInSuccess : String :=
  "След 01.01.2024 Грешка невалидна капча документ е получен."

/-- A container-free response whose success-phrase match contains both an
error token and a captcha token. -/
def respErrCapInSuccess : ParsedResponse :=
  ⟨none, bodyErrCapInSuccess, bodyErrCapInSuccess⟩

/-- Page text whose success-phrase match contains an error token but no
captcha token. -/
def bodyErrInSuccess : String :=
  "След 01.01.2024 Грешка документ е получен."

/-- A container-free response whose success-phrase match contains an error
token but no captcha token. -/
def respErrInSuccess : ParsedResponse := ⟨none, bodyErrInSuccess, bodyErrInSuccess⟩

/-- A clean success response: no container, page text is exactly the
success phrase. -/
def respPlainSuccess : ParsedResponse :=
  ⟨none, "След 01.01.2024 г. документ е получен.",
   "След 01.01.2024 г. документ е получен."⟩

/-- A response whose alert container reports an invalid CAPTCHA. -/
def respCaptchaErr : ParsedResponse :=
  ⟨some "Грешка: невалидна капча", "Грешка: невалидна капча",
   "Грешка: невалидна капча"⟩

/-- A response whose alert container reports a non-CAPTCHA error. -/
def respPermErr : ParsedResponse :=
  ⟨some "Грешка: невалиден ЕГН", "Грешка: невалиден ЕГН",
   "Грешка: невалиден ЕГН"⟩

/-- An environment in which every attempt ends in a CAPTCHA error. -/
def envAllCap : Nat → Attempt := fun _ => ⟨true, "XYZ12", "XYZ12", respCaptchaErr⟩

/-- An environment whose first attempt ends in a permanent error. -/
def envPerm : Nat → Attempt := fun _ => ⟨true, "XYZ12", "XYZ12", respPermErr⟩

/-- An attempt as seen by a client that fell back to manual mode. -/
def attManual : Attempt := ⟨true, "", "ABC99", respPlainSuccess⟩

/-!  Helper lemmas. -/

theorem hasSub_cons (q : List Char) (c : Char) (t : List Char)
    (h : hasSub q t = true) : hasSub q (c :: t) = true := by
  simp [hasSub, h]

theorem hasSub_append_left (q pre t : List Char)
    (h : hasSub q t = true) : hasSub q (pre ++ t) = true := by
  induction pre with
  | nil => simpa using h
  | cons c cs ih => exact hasSub_cons q c (cs ++ t) ih

theorem beginsWith_refl (l : List Char) : beginsWith l l = true := by
  induction l with
  | nil => rfl
  | cons c cs ih => simp [beginsWith, ih]

theorem hasSub_self (q : List Char) : hasSub q q = true := by
  cases q with
  | nil => rfl
  | cons c cs => simp [hasSub, beginsWith_refl]

theorem beginsWithCi_lower (p : List Char) :
    ∀ cs : List Char, beginsWithCi p cs = true →
      lowerList (cs.take p.length) = lowerList p := by
  induction p with
  | nil => intro cs _; rfl
  | cons p ps ih =>
    intro cs h
    cases cs with
    | nil => exact absurd h (by simp [beginsWithCi])
    | cons c cs' =>
      simp only [beginsWithCi, Bool.and_eq_true, beq_iff_eq] at h
      have ih' := ih cs' h.2
      simp only [lowerList, List.map_cons] at ih' ⊢
      simp only [List.length_cons, List.take_succ_cons, List.map_cons,
        ih', h.1]

theorem takeThroughCi_hasSub (p : List Char) :
    ∀ cs t : List Char, takeThroughCi p cs = some t →
      hasSub (lowerList p) (lowerList t) = true := by
  intro cs
  induction cs with
  | nil => intro t h; exact absurd h (by simp [takeThroughCi])
  | cons c cs' ih =>
    intro t h
    simp only [takeThroughCi] at h
    by_cases hb : beginsWithCi p (c :: cs') = true
    · rw [if_pos hb] at h
      obtain rfl : (c :: cs').take p.length = t := Option.some.inj h
      rw [beginsWithCi_lower p (c :: cs') hb]
      exact hasSub_self _
    · rw [if_neg hb] at h
      cases hm : takeThroughCi p cs' with
      | none => rw [hm] at h; exact absurd h (by simp)
      | some m =>
        rw [hm] at h
        obtain rfl : c :: m = t := Option.some.inj h
        exact hasSub_cons _ _ _ (ih m hm)

theorem take_append_captcha (k : Nat) (cs r t : List Char)
    (hT : takeThroughCi "капча".toList r = some t) :
    hasSub (lowerList "капча".toList) (lowerList (cs.take k ++ t)) = true := by
  simp only [lowerList, List.map_append]
  have := takeThroughCi_hasSub _ r t hT
  simp only [lowerList] at this
  exact hasSub_append_left _ _ _ this

theorem matchErrorAt_captcha (cs m : List Char)
    (h : matchErrorAt cs = some m) :
    hasSub (lowerList "капча".toList) (lowerList m) = true := by
  unfold matchErrorAt at h
  cases hG : stripLeadCi "Грешка".toList cs with
  | some r =>
    cases hT : takeThroughCi "капча".toList r with
    | some t =>
      simp only [hG, hT, Option.some.injEq] at h
      subst h
      exact take_append_captcha 6 cs r t hT
    | none =>
      simp only [hG, hT] at h
      cases hN : stripLeadCi "Невалидна".toList cs with
      | some r2 =>
        cases hT2 : takeThroughCi "капча".toList r2 with
        | some t2 =>
          simp only [hN, hT2, Option.some.injEq] at h
          subst h
          exact take_append_captcha 9 cs r2 t2 hT2
        | none =>
          simp only [hN, hT2] at h
          exact absurd h (by simp)
      | none =>
        simp only [hN] at h
        exact absurd h (by simp)
  | none =>
    simp only [hG] at h
    cases hN : stripLeadCi "Невалидна".toList cs with
    | some r2 =>
      cases hT2 : takeThroughCi "капча".toList r2 with
      | some t2 =>
        simp only [hN, hT2, Option.some.injEq] at h
        subst h
        exact take_append_captcha 9 cs r2 t2 hT2
      | none =>
        simp only [hN, hT2] at h
        exact absurd h (by simp)
    | none =>
      simp only [hN] at h
      exact absurd h (by simp)

theorem searchError_captcha :
    ∀ cs m : List Char, searchError cs = some m →
      hasSub (lowerList "капча".toList) (lowerList m) = true := by
  intro cs
  induction cs with
  | nil => intro m h; exact absurd h (by simp [searchError])
  | cons c cs' ih =>
    intro m h
    simp only [searchError] at h
    cases hM : matchErrorAt (c :: cs') with
    | some m' =>
      rw [hM] at h
      obtain rfl : m' = m := Option.some.inj h
      exact matchErrorAt_captcha _ _ hM
    | none => rw [hM] at h; exact ih m h

theorem loopRun_fetches_le (env : Nat → Attempt) (egn ln : String) :
    ∀ (rem idx : Nat) (last : Option QueryResult) (tr : Trace),
      (loopRun env true egn ln rem idx last tr).1.fetches ≤
        tr.fetches + rem := by
  intro rem
  induction rem with
  | zero => intro idx last tr; simp [loopRun]
  | succ rem ih =>
    intro idx last tr
    simp only [loopRun, Bool.not_true, Bool.and_false]
    rw [if_neg Bool.false_ne_true]
    by_cases hs : (attemptStep true egn ln (env idx)).success = true
    · rw [if_pos hs]
      simp
    · rw [if_neg hs]
      by_cases hc : (attemptStep true egn ln (env idx)).is_captcha_error = true
      · rw [if_pos hc]
        have := ih (idx + 1) (some (attemptStep true egn ln (env idx)))
          ⟨tr.fetches + 1, tr.submits + 1⟩
        simp only [Trace.fetches] at this ⊢
        omega
      · rw [if_neg hc]
        simp

theorem loopRun_all_cap (env : Nat → Attempt) (egn ln : String) :
    ∀ (rem idx : Nat) (last : Option QueryResult) (tr : Trace),
      1 ≤ rem →
      (∀ i, i < rem → capErrAt egn ln (env (idx + i))) →
      loopRun env true egn ln rem idx last tr =
        (⟨tr.fetches + rem, tr.submits + rem⟩,
         QueryOutcome.ok (attemptStep true egn ln (env (idx + (rem - 1))))) := by
  intro rem
  induction rem with
  | zero => intro idx last tr h; exact absurd h (by omega)
  | succ rem ih =>
    intro idx last tr _ hall
    have h0 := hall 0 (by omega)
    rw [Nat.add_zero] at h0
    obtain ⟨hs, hc⟩ := h0
    simp only [loopRun, Bool.not_true, Bool.and_false]
    rw [if_neg Bool.false_ne_true, hs, if_neg Bool.false_ne_true, hc,
      if_pos rfl]
    cases rem with
    | zero =>
      simp [loopRun, finishLoop]
    | succ k =>
      have ih' := ih (idx + 1) (some (attemptStep true egn ln (env idx)))
        ⟨tr.fetches + 1, tr.submits + 1⟩ (by omega)
        (by
          intro i hi
          have := hall (i + 1) (by omega)
          rwa [show idx + (i + 1) = idx + 1 + i by omega] at this)
      rw [ih']
      have harith1 : tr.fetches + 1 + (k + 1) = tr.fetches + (k + 1 + 1) := by
        omega
      have harith2 : tr.submits + 1 + (k + 1) = tr.submits + (k + 1 + 1) := by
        omega
      have harith3 : idx + 1 + (k + 1 - 1) = idx + (k + 1 + 1 - 1) := by omega
      rw [harith1, harith2, harith3]

theorem loopRun_perm_stop (env : Nat → Attempt) (egn ln : String) :
    ∀ (k rem idx : Nat) (last : Option QueryResult) (tr : Trace),
      k < rem →
      (∀ i, i < k → capErrAt egn ln (env (idx + i))) →
      (attemptStep true egn ln (env (idx + k))).success = false →
      (attemptStep true egn ln (env (idx + k))).is_captcha_error = false →
      loopRun env true egn ln rem idx last tr =
        (⟨tr.fetches + k + 1, tr.submits + k + 1⟩,
         QueryOutcome.ok (attemptStep true egn ln (env (idx + k)))) := by
  intro k
  induction k with
  | zero =>
    intro rem idx last tr hk _ hs hc
    cases rem with
    | zero => exact absurd hk (by omega)
    | succ m =>
      rw [Nat.add_zero] at hs hc
      simp only [loopRun, Bool.not_true, Bool.and_false]
      rw [if_neg Bool.false_ne_true, hs, if_neg Bool.false_ne_true, hc,
        if_neg Bool.false_ne_true]
      simp
  | succ k ih =>
    intro rem idx last tr hk hall hs hc
    cases rem with
    | zero => exact absurd hk (by omega)
    | succ m =>
      have h0 := hall 0 (by omega)
      rw [Nat.add_zero] at h0
      obtain ⟨hs0, hc0⟩ := h0
      simp only [loopRun, Bool.not_true, Bool.and_false]
      rw [if_neg Bool.false_ne_true, hs0, if_neg Bool.false_ne_true, hc0,
        if_pos rfl]
      have ih' := ih m (idx + 1) (some (attemptStep true egn ln (env idx)))
        ⟨tr.fetches + 1, tr.submits + 1⟩ (by omega)
        (by
          intro i hi
          have := hall (i + 1) (by omega)
          rwa [show idx + (i + 1) = idx + 1 + i by omega] at this)
        (by rwa [show idx + 1 + k = idx + (k + 1) by omega])
        (by rwa [show idx + 1 + k = idx + (k + 1) by omega])
      rw [ih']
      have harith1 : tr.fetches + 1 + k + 1 = tr.fetches + (k + 1) + 1 := by
        omega
      have harith2 : tr.submits + 1 + k + 1 = tr.submits + (k + 1) + 1 := by
        omega
      have harith3 : idx + 1 + k = idx + (k + 1) := by omega
      rw [harith1, harith2, harith3]

/-!  Claim theorems. -/

/-- Claim C1 (evidence of the divergence): on a response in which no
result container is found and the page text matches neither the success
nor the error-with-captcha pattern, `_do_query` does return the sentinel
text "Could not parse result" — but with `success = true`, because the
sentinel branch never sets `is_error` and the returned success flag is
`not is_error`.  The claim (and the spec) require `success = false` for
this outcome. -/
theorem c1_sentinel_evaluation :
    (doQuery "1234567890" "Иванов" "" respSentinel).result =
      "Could not parse result" ∧
    (doQuery "1234567890" "Иванов" "" respSentinel).success = true :=
  ⟨rfl, rfl⟩

/-- Claim C2 (counterexample): a response body that contains the
success-pattern phrase but also carries an alert container is classified
from the container, not from the phrase — here the container says
`Грешка`, so the parser returns `success = false` although the body
contains the success pattern.  The claim as stated is therefore false. -/
theorem c2_counterexample :
    (searchSuccess bodyShadowed.toList).isSome = true ∧
    (doQuery "1234567890" "Иванов" "" respShadowed).success = false :=
  ⟨rfl, rfl⟩

/-- Claim C2 (amended): for every response in which no named result
container is found and whose page text matches the success pattern, the
parser returns `success = true` and result-text equal to the matched
phrase. -/
theorem c2_amended (egn ln c : String) (resp : ParsedResponse)
    (m : List Char) (hc : resp.containerText = none)
    (hs : searchSuccess resp.fullText.toList = some m) :
    (doQuery egn ln c resp).success = true ∧
    (doQuery egn ln c resp).result = String.mk m := by
  simp only [String.toList] at hs
  simp [doQuery, hc, hs]

/-- Claim C2 (witness): the amended statement applied to a concrete
success response. -/
theorem c2_amended_witness :
    (doQuery "1234567890" "Иванов" "" respPlainSuccess).success = true ∧
    (doQuery "1234567890" "Иванов" "" respPlainSuccess).result =
      String.mk "След 01.01.2024 г. документ е получен.".toList :=
  c2_amended "1234567890" "Иванов" "" respPlainSuccess
    "След 01.01.2024 г. документ е получен.".toList rfl rfl

/-- Claim C5: on every parser path, `is_captcha_error = true` implies
`success = false`.  In the container path the captcha flag is only set
under the error flag, and in the fallback path the error-pattern branch
sets both. -/
theorem c5_invariant (egn ln c : String) (resp : ParsedResponse)
    (h : (doQuery egn ln c resp).is_captcha_error = true) :
    (doQuery egn ln c resp).success = false := by
  cases hc : resp.containerText with
  | some t =>
    simp only [doQuery, hc] at h ⊢
    rw [Bool.and_eq_true] at h
    obtain ⟨h1, _⟩ := h
    simp [h1]
  | none =>
    simp only [doQuery, hc] at h ⊢
    cases hsX : searchSuccess resp.fullText.toList with
    | some m =>
      simp only [hsX] at h
      exact absurd h (by simp)
    | none =>
      simp only [hsX] at h ⊢
      cases heX : searchError resp.fullText.toList with
      | some m => simp only [heX]
      | none =>
        simp only [heX] at h
        exact absurd h (by simp)

/-- Claim C5 (witness): the invariant applied to a concrete
captcha-error response. -/
theorem c5_witness :
    (doQuery "1" "Станков" "" respCaptchaErr).success = false :=
  c5_invariant "1" "Станков" "" respCaptchaErr rfl

/-- Claim C7: a truthy pre-solved CAPTCHA makes `query_documents` perform
exactly one submission and no form fetch, returning `_do_query`'s result
directly, whatever that result is. -/
theorem c7_presolved (env : Nat → Attempt) (useOcr : Bool) (m : Int)
    (egn ln c : String) (h : c ≠ "") :
    query_documents env useOcr m egn ln (some c) =
      (⟨0, 1⟩, QueryOutcome.ok (doQuery egn ln c (env 0).response)) := by
  simp [query_documents, truthy, h]

/-- Claim C7 (witness): the pre-solved path on a concrete input. -/
theorem c7_witness :
    query_documents envAllCap false 5 "111" "Тодоров" (some "AB12") =
      (⟨0, 1⟩,
       QueryOutcome.ok (doQuery "111" "Тодоров" "AB12" (envAllCap 0).response)) :=
  c7_presolved envAllCap false 5 "111" "Тодоров" "AB12" (by decide)

/-- Claim C10: with no truthy pre-solved CAPTCHA and a retry budget below
1 the loop body never runs, and the final `return result` reads the
never-assigned local `result`, raising `UnboundLocalError` instead of
returning a query result; no fetch or submission happens. -/
theorem c10_zero_budget (env : Nat → Attempt) (useOcr : Bool) (m : Int)
    (egn ln : String) (c : Option String) (hm : m < 1)
    (hc : truthy c = false) :
    query_documents env useOcr m egn ln c =
      (⟨0, 0⟩, QueryOutcome.unboundLocal) := by
  have hm' : m.toNat = 0 := Int.toNat_of_nonpos (by omega)
  simp [query_documents, hc, hm', loopRun, finishLoop]

/-- Claim C10 (witness): budget 0, no pre-solved CAPTCHA. -/
theorem c10_witness :
    query_documents envAllCap true 0 "111" "Тодоров" none =
      (⟨0, 0⟩, QueryOutcome.unboundLocal) :=
  c10_zero_budget envAllCap true 0 "111" "Тодоров" none (by decide) rfl

/-- Claim C3 (counterexample): when no container is found and the page
text matches the success pattern, the matched phrase becomes the result
text without any error-token inspection — here the matched phrase contains
both `Грешка` and `капча`, yet the parser returns `success = true` and
`is_captcha_error = false`.  The claim as stated is therefore false. -/
theorem c3_counterexample :
    containsStr "Грешка"
      (doQuery "1" "Петров" "" respErrCapInSuccess).result = true ∧
    containsStr "капча"
      (lowerStr (doQuery "1" "Петров" "" respErrCapInSuccess).result) = true ∧
    (doQuery "1" "Петров" "" respErrCapInSuccess).is_captcha_error = false ∧
    (doQuery "1" "Петров" "" respErrCapInSuccess).success = true :=
  ⟨rfl, rfl, rfl, rfl⟩

/-- Claim C3 (amended): for every response whose matched result text
contains an error token (`Грешка` or `Невалидна`) together with the
captcha token (`капча`, case-insensitive), *and which was not classified
through the success-pattern fallback match*, the parser returns
`is_captcha_error = true` and `success = false`. -/
theorem c3_amended (egn ln c : String) (resp : ParsedResponse)
    (h1 : (containsStr "Грешка" (doQuery egn ln c resp).result ||
           containsStr "Невалидна" (doQuery egn ln c resp).result) = true)
    (h2 : containsStr "капча"
            (lowerStr (doQuery egn ln c resp).result) = true)
    (h3 : ¬(resp.containerText = none ∧
            (searchSuccess resp.fullText.toList).isSome = true)) :
    (doQuery egn ln c resp).is_captcha_error = true ∧
    (doQuery egn ln c resp).success = false := by
  cases hc : resp.containerText with
  | some t =>
    simp only [doQuery, hc] at h1 h2 ⊢
    exact ⟨by simp [h1, h2], by simp [h1]⟩
  | none =>
    cases hsX : searchSuccess resp.fullText.toList with
    | some m => exact absurd ⟨hc, by rw [hsX]; rfl⟩ h3
    | none =>
      cases heX : searchError resp.fullText.toList with
      | some m =>
        simp only [doQuery, hc, hsX, heX]
        exact ⟨trivial, trivial⟩
      | none =>
        simp only [doQuery, hc, hsX, heX] at h1
        exact absurd h1 (by decide)

/-- Claim C3 (witness): the amended statement applied to a concrete
captcha-error container response. -/
theorem c3_amended_witness :
    (doQuery "1" "Сидоров" "" respCaptchaErr).is_captcha_error = true ∧
    (doQuery "1" "Сидоров" "" respCaptchaErr).success = false :=
  c3_amended "1" "Сидоров" "" respCaptchaErr rfl rfl (by simp [respCaptchaErr])

/-- Claim C4 (counterexample): a container-free page text whose
success-pattern match contains `Грешка` but no captcha token yields
`success = true` — not the `success = false` the claim requires (the
success-pattern fallback runs before any error-token inspection).  The
claim as stated is therefore false. -/
theorem c4_counterexample :
    containsStr "Грешка"
      (doQuery "1" "Петров" "" respErrInSuccess).result = true ∧
    containsStr "капча"
      (lowerStr (doQuery "1" "Петров" "" respErrInSuccess).result) = false ∧
    (doQuery "1" "Петров" "" respErrInSuccess).is_captcha_error = false ∧
    (doQuery "1" "Петров" "" respErrInSuccess).success = true :=
  ⟨rfl, rfl, rfl, rfl⟩

/-- Claim C4 (amended): (1) for every response whose matched result text
contains an error token but no captcha token, and which was not classified
through the success-pattern fallback match, the parser returns
`is_captcha_error = false` and `success = false`; (2) when an attempt of
the auto-solve loop produces a result with `success = false` and
`is_captcha_error = false`, the loop returns that result immediately: it
performs no further fetch or submission. -/
theorem c4_amended :
    (∀ (egn ln c : String) (resp : ParsedResponse),
      (containsStr "Грешка" (doQuery egn ln c resp).result ||
       containsStr "Невалидна" (doQuery egn ln c resp).result) = true →
      containsStr "капча"
        (lowerStr (doQuery egn ln c resp).result) = false →
      ¬(resp.containerText = none ∧
        (searchSuccess resp.fullText.toList).isSome = true) →
      (doQuery egn ln c resp).is_captcha_error = false ∧
      (doQuery egn ln c resp).success = false) ∧
    (∀ (env : Nat → Attempt) (egn ln : String) (rem idx : Nat)
       (last : Option QueryResult) (tr : Trace),
      (attemptStep true egn ln (env idx)).success = false →
      (attemptStep true egn ln (env idx)).is_captcha_error = false →
      loopRun env true egn ln (rem + 1) idx last tr =
        (⟨tr.fetches + 1, tr.submits + 1⟩,
         QueryOutcome.ok (attemptStep true egn ln (env idx)))) := by
  constructor
  · intro egn ln c resp h1 h2 h3
    cases hc : resp.containerText with
    | some t =>
      simp only [doQuery, hc] at h1 h2 ⊢
      exact ⟨by simp [h1, h2], by simp [h1]⟩
    | none =>
      cases hsX : searchSuccess resp.fullText.toList with
      | some m => exact absurd ⟨hc, by rw [hsX]; rfl⟩ h3
      | none =>
        cases heX : searchError resp.fullText.toList with
        | some m =>
          simp only [doQuery, hc, hsX, heX] at h2
          have hcap := searchError_captcha _ m heX
          have hcap' : hasSub "капча".toList (lowerList m) = true := hcap
          have h2' : hasSub "капча".toList (lowerList m) = false := h2
          rw [h2'] at hcap'
          exact absurd hcap' Bool.false_ne_true
        | none =>
          simp only [doQuery, hc, hsX, heX] at h1
          exact absurd h1 (by decide)
  · intro env egn ln rem idx last tr hs hc
    have := loopRun_perm_stop env egn ln 0 (rem + 1) idx last tr (by omega)
      (by intro i hi; exact absurd hi (by omega))
      (by rwa [Nat.add_zero]) (by rwa [Nat.add_zero])
    simpa using this

/-- Claim C4 (witness): the amended statement applied to a concrete
permanent-error container response and to a one-step loop run that stops
on it. -/
theorem c4_amended_witness :
    ((doQuery "1" "Петров" "" respPermErr).is_captcha_error = false ∧
     (doQuery "1" "Петров" "" respPermErr).success = false) ∧
    loopRun envPerm true "9" "Георгиев" (3 + 1) 0 none ⟨0, 0⟩ =
      (⟨1, 1⟩, QueryOutcome.ok (attemptStep true "9" "Георгиев" (envPerm 0))) :=
  ⟨c4_amended.1 "1" "Петров" "" respPermErr rfl rfl (by simp [respPermErr]),
   c4_amended.2 envPerm "9" "Георгиев" 3 0 none ⟨0, 0⟩ rfl rfl⟩

/-- Claim C6: for the auto-solve loop with retry budget `n ≥ 1`:
(1) the number of form fetches never exceeds `n`; (2) when every one of
the `n` attempts ends in a CAPTCHA error, the run performs exactly `n`
fetches and returns the result of the `n`-th (last) attempt; (3) when the
first `k` attempts end in CAPTCHA errors and attempt `k+1` ends in a
permanent (non-CAPTCHA) error, the run performs exactly `k+1` fetches —
no further fetch after the permanent error. -/
theorem c6_retry_loop (env : Nat → Attempt) (egn ln : String) (n : Nat)
    (hn : 1 ≤ n) :
    (query_documents env true (n : Int) egn ln none).1.fetches ≤ n ∧
    ((∀ i, i < n → capErrAt egn ln (env i)) →
      query_documents env true (n : Int) egn ln none =
        (⟨n, n⟩, QueryOutcome.ok (attemptStep true egn ln (env (n - 1))))) ∧
    (∀ k, k < n → (∀ i, i < k → capErrAt egn ln (env i)) →
      (attemptStep true egn ln (env k)).success = false →
      (attemptStep true egn ln (env k)).is_captcha_error = false →
      (query_documents env true (n : Int) egn ln none).1.fetches = k + 1) := by
  have hq : query_documents env true (n : Int) egn ln none =
      loopRun env true egn ln n 0 none ⟨0, 0⟩ := by
    simp [query_documents, truthy]
  refine ⟨?_, ?_, ?_⟩
  · rw [hq]
    have := loopRun_fetches_le env egn ln n 0 none ⟨0, 0⟩
    simpa using this
  · intro hall
    rw [hq]
    have := loopRun_all_cap env egn ln n 0 none ⟨0, 0⟩ hn
      (by intro i hi; simpa using hall i hi)
    simpa using this
  · intro k hk hall hs hc
    rw [hq]
    have := loopRun_perm_stop env egn ln k n 0 none ⟨0, 0⟩ hk
      (by intro i hi; simpa using hall i hi)
      (by simpa using hs) (by simpa using hc)
    rw [this]
    simp

/-- Claim C6 (witness): the fetch bound applied to a concrete
all-CAPTCHA-error environment with budget 2. -/
theorem c6_witness :
    (query_documents envAllCap true ((2 : Nat) : Int) "1234" "Димитров"
      none).1.fetches ≤ 2 :=
  (c6_retry_loop envAllCap "1234" "Димитров" 2 (by omega)).1

/-- Claim C8 (counterexample): with automatic solving requested and
neither OCR engine importable, `__init__` does not fail — it sets
`use_ocr = False` (after printing a warning) — and a subsequent
`query_documents` run proceeds to solve the CAPTCHA manually and submit
the query.  The claimed fatal "no OCR engine available" error at
construction does not happen. -/
theorem c8_counterexample :
    initClient ⟨false, false⟩ true = ⟨false, false, false⟩ ∧
    (loopRun (fun _ => attManual) (initClient ⟨false, false⟩ true).use_ocr
        "111" "Тодоров" 1 0 none ⟨0, 0⟩).1.submits = 1 :=
  ⟨rfl, rfl⟩

/-- Claim C8 (amended): when automatic solving is requested and neither
OCR engine can be initialized, the constructor falls back to manual mode
(`use_ocr = False`) without failing; the fatal RuntimeError
"No OCR library available. Install ddddocr or easyocr." is raised only if
`solve_captcha_ocr` is invoked on such a client. -/
theorem c8_amended (avail : OcrAvailability) (h1 : avail.ddddocr = false)
    (h2 : avail.easyocr = false) :
    (initClient avail true).use_ocr = false ∧
    ∀ (d : String) (outs : List String),
      solve_captcha_ocr (initClient avail true) d outs =
        Except.error "No OCR library available. Install ddddocr or easyocr." := by
  cases avail with
  | mk dd ee =>
    simp only at h1 h2
    subst h1
    subst h2
    exact ⟨rfl, fun _ _ => rfl⟩

/-- Claim C8 (witness): the amended statement applied to the concrete
no-engines availability. -/
theorem c8_amended_witness :
    (initClient ⟨false, false⟩ true).use_ocr = false ∧
    solve_captcha_ocr (initClient ⟨false, false⟩ true) "AB" [] =
      Except.error "No OCR library available. Install ddddocr or easyocr." :=
  ⟨(c8_amended ⟨false, false⟩ rfl rfl).1,
   (c8_amended ⟨false, false⟩ rfl rfl).2 "AB" []⟩

/-!  Base64 round-trip lemmas for claim C9. -/

theorem sextetVal_sextetChar : ∀ v, v < 64 → sextetVal (sextetChar v) = some v := by
  decide

theorem sextetChar_ne_pad : ∀ v, v < 64 → (sextetChar v == '=') = false := by
  decide

theorem b64_roundtrip :
    ∀ bs : List Nat, (∀ b ∈ bs, b < 256) →
      b64DecodeChars (b64EncodeBytes bs) = some bs
  | [], _ => rfl
  | [b1], h => by
    have hb1 : b1 < 256 := h b1 (by simp)
    have h1 : b1 / 4 < 64 := by omega
    have h2 : b1 % 4 * 16 < 64 := by omega
    simp only [b64EncodeBytes, b64DecodeChars, sextetVal_sextetChar _ h1,
      sextetVal_sextetChar _ h2]
    simp
    omega
  | [b1, b2], h => by
    have hb1 : b1 < 256 := h b1 (by simp)
    have hb2 : b2 < 256 := h b2 (by simp)
    have h1 : b1 / 4 < 64 := by omega
    have h2 : b1 % 4 * 16 + b2 / 16 < 64 := by omega
    have h3 : b2 % 16 * 4 < 64 := by omega
    simp only [b64EncodeBytes, b64DecodeChars, sextetVal_sextetChar _ h1,
      sextetVal_sextetChar _ h2, sextetVal_sextetChar _ h3,
      sextetChar_ne_pad _ h3]
    simp
    omega
  | b1 :: b2 :: b3 :: rest, h => by
    have hb1 : b1 < 256 := h b1 (by simp)
    have hb2 : b2 < 256 := h b2 (by simp)
    have hb3 : b3 < 256 := h b3 (by simp)
    have ih := b64_roundtrip rest (fun b hb => h b (by simp [hb]))
    have h1 : b1 / 4 < 64 := by omega
    have h2 : b1 % 4 * 16 + b2 / 16 < 64 := by omega
    have h3 : b2 % 16 * 4 + b3 / 64 < 64 := by omega
    have h4 : b3 % 64 < 64 := by omega
    simp only [b64EncodeBytes, b64DecodeChars, sextetVal_sextetChar _ h1,
      sextetVal_sextetChar _ h2, sextetVal_sextetChar _ h3,
      sextetVal_sextetChar _ h4, sextetChar_ne_pad _ h3,
      sextetChar_ne_pad _ h4]
    simp [ih]
    omega

theorem beginsWith_append (p rest : List Char) :
    beginsWith p (p ++ rest) = true := by
  induction p with
  | nil => rfl
  | cons c cs ih => simp [beginsWith, ih]

theorem toList_append (s t : String) :
    (s ++ t).toList = s.toList ++ t.toList := by
  cases s
  cases t
  rfl

theorem splitOnceComma_append (pre rest : List Char) (h : ',' ∉ pre) :
    splitOnceComma (pre ++ ',' :: rest) = some (pre, rest) := by
  induction pre with
  | nil => simp [splitOnceComma]
  | cons c cs ih =>
    have hne : ¬(c = ',') := fun hx => h (by simp [hx])
    have hih := ih (fun hx => h (List.mem_cons_of_mem c hx))
    simp [splitOnceComma, hne, hih]

/-- Claim C9: when the CAPTCHA image source is a base64 data URI whose
payload (the portion after the comma) encodes a byte sequence, the bytes
the extractor decodes are exactly that byte sequence — the
encode-then-extract round trip is the identity. -/
theorem c9_data_uri_roundtrip (meta : String) (bs : List Nat)
    (hmeta : ',' ∉ meta.toList) (hbs : ∀ b ∈ bs, b < 256) :
    extractDataUriBytes
        ("data:image" ++ meta ++ "," ++ String.mk (b64EncodeBytes bs)) =
      some bs := by
  have hpre : ',' ∉ ("data:image".toList ++ meta.toList) := by
    intro hx
    rcases List.mem_append.mp hx with hx1 | hx2
    · exact absurd hx1 (by decide)
    · exact hmeta hx2
  have htl : ("data:image" ++ meta ++ "," ++
      String.mk (b64EncodeBytes bs)).toList =
      ("data:image".toList ++ meta.toList) ++ ',' :: b64EncodeBytes bs := by
    rw [toList_append, toList_append, toList_append]
    rw [List.append_assoc ("data:image".toList ++ meta.toList)]
    rfl
  unfold extractDataUriBytes
  rw [htl]
  have hb : beginsWith "data:image".toList
      (("data:image".toList ++ meta.toList) ++ ',' :: b64EncodeBytes bs) =
      true := by
    rw [List.append_assoc]
    exact beginsWith_append _ _
  rw [if_pos hb, splitOnceComma_append _ _ hpre]
  exact b64_roundtrip bs hbs

/-- Claim C9 (witness): the round trip on the concrete payload
`[77, 97, 110]` (`TWFu`). -/
theorem c9_witness :
    extractDataUriBytes
        ("data:image" ++ "/png;base64" ++ "," ++
          String.mk (b64EncodeBytes [77, 97, 110])) =
      some [77, 97, 110] :=
  c9_data_uri_roundtrip "/png;base64" [77, 97, 110] (by decide) (by decide)

end MVR
